import Mathlib

/-! Iterator adaptors (`boost/iterator_adaptors.hpp`).

A shallow embedding of the header `include/boost/iterator_adaptors.hpp`:
the default policy class, the adaptor `iterator_adaptor` with its member
operators, and the free operators defined after it.

Conventions of the embedding.

* A policy class has only static member functions; it is a record of pure
  functions.  A function taking `Iterator&` and returning `void` becomes a
  function `Iterator → Iterator` giving the new value of its argument.
* A non-const member function of the adaptor becomes a function of the value
  of `*this` before the call; the value of `*this` after the call is part of
  its result.  A member returning `*this` as `Self&` returns that new value.
* A free operator taking the adaptor by value works on its own copy.
* The associated types `Traits::reference` and `Traits::difference_type` are
  the type parameters `Reference` and `Difference`.
-/

namespace boost

universe u

/-- The type envelope `template <class T> struct type {}`: an empty tag that
only carries `T`. -/
structure type (T : Type u) : Type where

/-- The native operators of the wrapped iterator type that
`default_iterator_policies` calls: `*x`, `++x`, `--x`, `x += n`, `a - b`,
`a == b`, `a < b`.  The header is a template over `Iterator`, so they are a
parameter of the embedding. -/
structure base_operators (Iterator Reference Difference : Type) where
  /-- The value of `*x`. -/
  deref : Iterator → Reference
  /-- The value of `x` after `++x`. -/
  pre_increment : Iterator → Iterator
  /-- The value of `x` after `--x`. -/
  pre_decrement : Iterator → Iterator
  /-- The value of `x` after `x += n`. -/
  plus_assign : Iterator → Difference → Iterator
  /-- The value of `a - b`. -/
  minus : Iterator → Iterator → Difference
  /-- The value of `a == b`. -/
  equal_to : Iterator → Iterator → Bool
  /-- The value of `a < b`. -/
  less_than : Iterator → Iterator → Bool

/-- The seven static operations that the adaptor requires of its template
argument `Policies`. -/
structure Policies (Iterator Reference Difference : Type) where
  /-- `Policies::dereference(type<Reference>, const Iterator& x)`. -/
  dereference : type Reference → Iterator → Reference
  /-- `Policies::increment(Iterator& x)`: the new value of `x`. -/
  increment : Iterator → Iterator
  /-- `Policies::decrement(Iterator& x)`: the new value of `x`. -/
  decrement : Iterator → Iterator
  /-- `Policies::advance(Iterator& x, DifferenceType n)`: the new value of `x`. -/
  advance : Iterator → Difference → Iterator
  /-- `Policies::distance(type<Difference>, Iterator1& x, Iterator2& y)`. -/
  distance : type Difference → Iterator → Iterator → Difference
  /-- `Policies::equal(Iterator1& x, Iterator2& y)`. -/
  equal : Iterator → Iterator → Bool
  /-- `Policies::less(Iterator1& x, Iterator2& y)`. -/
  less : Iterator → Iterator → Bool

variable {Iterator Reference Difference : Type}

/-- The class `default_iterator_policies`: every operation forwards to the
native operator of the wrapped iterator. -/
def default_iterator_policies (ops : base_operators Iterator Reference Difference) :
    Policies Iterator Reference Difference where
  dereference := fun _ x => ops.deref x
  increment := fun x => ops.pre_increment x
  decrement := fun x => ops.pre_decrement x
  advance := fun x n => ops.plus_assign x n
  distance := fun _ x y => ops.minus y x
  equal := fun x y => ops.equal_to x y
  less := fun x y => ops.less_than x y

/-- The class template `iterator_adaptor`: its only data member is `m_impl`.
The constructor `iterator_adaptor(const Iterator& impl) : m_impl(impl)` is the
structure constructor. -/
structure iterator_adaptor (Iterator : Type) where
  /-- The wrapped iterator. -/
  m_impl : Iterator
deriving DecidableEq, Repr

/-- An object that an expression in a member function of the adaptor can
designate.  A pointer is modelled by the object it points to, so the value of
`&e` is the object that `e` designates. -/
inductive designated (Iterator Reference : Type) where
  /-- The adaptor object itself, the object that `this` points to. -/
  | adaptor_object (self : iterator_adaptor Iterator) : designated Iterator Reference
  /-- The object that a value of type `reference` refers to. -/
  | referent (r : Reference) : designated Iterator Reference
deriving DecidableEq

/-- A reference to an automatic variable of a function that has returned.
The variable held `last_value` when its lifetime ended with the return. -/
structure expired_local (T : Type) where
  /-- The value of the variable at the end of its lifetime. -/
  last_value : T
deriving DecidableEq

/-- Reading through a reference to an automatic variable after the function
has returned: the reference designates no object, so there is no value. -/
def expired_local.read {T : Type} (_ : expired_local T) : Option T := none

namespace iterator_adaptor

/-- The member `reference operator*() const`:
`return Policies::dereference(type<reference>(), m_impl);`. -/
def operator_star (P : Policies Iterator Reference Difference)
    (self : iterator_adaptor Iterator) : Reference :=
  P.dereference type.mk self.m_impl

/-- The member `pointer operator->() const { return &*this; }`.  In a member
function `this` is a pointer to the adaptor, so `*this` is the adaptor object
(not a call of `operator*`), and `&*this` is its address. -/
def operator_arrow (self : iterator_adaptor Iterator) : designated Iterator Reference :=
  designated.adaptor_object self

/-- The member `Self& operator++()`: `Policies::increment(m_impl); return *this;`.
The result is the value of `*this` after the call. -/
def operator_preinc (P : Policies Iterator Reference Difference)
    (self : iterator_adaptor Iterator) : iterator_adaptor Iterator :=
  { m_impl := P.increment self.m_impl }

/-- The member `Self& operator++(int) { Self tmp(*this); ++*this; return tmp; }`.
The return type is `Self&` and the returned object is the automatic variable
`tmp`.  The result is the returned reference and the value of `*this` after
the call. -/
def operator_postinc (P : Policies Iterator Reference Difference)
    (self : iterator_adaptor Iterator) :
    expired_local (iterator_adaptor Iterator) × iterator_adaptor Iterator :=
  let tmp := self
  let self := operator_preinc P self
  ({ last_value := tmp }, self)

/-- The member `Self& operator--()`: `Policies::decrement(m_impl); return *this;`. -/
def operator_predec (P : Policies Iterator Reference Difference)
    (self : iterator_adaptor Iterator) : iterator_adaptor Iterator :=
  { m_impl := P.decrement self.m_impl }

/-- The member `Self& operator--(int) { Self tmp(*this); --*this; return tmp; }`. -/
def operator_postdec (P : Policies Iterator Reference Difference)
    (self : iterator_adaptor Iterator) :
    expired_local (iterator_adaptor Iterator) × iterator_adaptor Iterator :=
  let tmp := self
  let self := operator_predec P self
  ({ last_value := tmp }, self)

/-- The member `Self& operator+=(difference_type n)`:
`Policies::advance(m_impl, n); return *this;`. -/
def operator_plus_assign (P : Policies Iterator Reference Difference)
    (self : iterator_adaptor Iterator) (n : Difference) : iterator_adaptor Iterator :=
  { m_impl := P.advance self.m_impl n }

/-- The member `Self& operator-=(difference_type n)`:
`Policies::advance(m_impl, -n); return *this;`. -/
def operator_minus_assign [Neg Difference] (P : Policies Iterator Reference Difference)
    (self : iterator_adaptor Iterator) (n : Difference) : iterator_adaptor Iterator :=
  { m_impl := P.advance self.m_impl (-n) }

end iterator_adaptor

open iterator_adaptor

/-- The free `operator-(iterator_adaptor p, const difference_type x)`:
`return p -= x;` on the by-value parameter `p`. -/
def operator_minus_offset [Neg Difference] (P : Policies Iterator Reference Difference)
    (p : iterator_adaptor Iterator) (x : Difference) : iterator_adaptor Iterator :=
  operator_minus_assign P p x

/-- The free `operator+(iterator_adaptor p, const difference_type x)`:
`return p += x;` on the by-value parameter `p`. -/
def operator_plus (P : Policies Iterator Reference Difference)
    (p : iterator_adaptor Iterator) (x : Difference) : iterator_adaptor Iterator :=
  operator_plus_assign P p x

/-- The free `operator+(const difference_type x, iterator_adaptor p)`:
`return p += x;` on the by-value parameter `p`. -/
def operator_plus_left (P : Policies Iterator Reference Difference)
    (x : Difference) (p : iterator_adaptor Iterator) : iterator_adaptor Iterator :=
  operator_plus_assign P p x

/-- The free `operator-(const iterator_adaptor& x, const iterator_adaptor& y)`:
`return Policies::distance(type<difference_type>(), y.m_impl, x.m_impl);`. -/
def operator_minus (P : Policies Iterator Reference Difference)
    (x y : iterator_adaptor Iterator) : Difference :=
  P.distance type.mk y.m_impl x.m_impl

/-- The free `operator==`: `return Policies::equal(x.m_impl, y.m_impl);`. -/
def operator_eq (P : Policies Iterator Reference Difference)
    (x y : iterator_adaptor Iterator) : Bool :=
  P.equal x.m_impl y.m_impl

/-- The free `operator<`: `return Policies::less(x.m_impl, y.m_impl);`. -/
def operator_lt (P : Policies Iterator Reference Difference)
    (x y : iterator_adaptor Iterator) : Bool :=
  P.less x.m_impl y.m_impl

/-- The free `operator>`: `return Policies::less(y.m_impl, x.m_impl);`. -/
def operator_gt (P : Policies Iterator Reference Difference)
    (x y : iterator_adaptor Iterator) : Bool :=
  P.less y.m_impl x.m_impl

/-- The free `operator>=`: `return !Policies::less(x.m_impl, y.m_impl);`. -/
def operator_ge (P : Policies Iterator Reference Difference)
    (x y : iterator_adaptor Iterator) : Bool :=
  !P.less x.m_impl y.m_impl

/-- The free `operator<=`: `return !Policies::less(y.m_impl, x.m_impl);`. -/
def operator_le (P : Policies Iterator Reference Difference)
    (x y : iterator_adaptor Iterator) : Bool :=
  !P.less y.m_impl x.m_impl

/-- The free `operator!=`: `return !Policies::equal(x.m_impl, y.m_impl);`. -/
def operator_ne (P : Policies Iterator Reference Difference)
    (x y : iterator_adaptor Iterator) : Bool :=
  !P.equal x.m_impl y.m_impl

/-- Modelled from the spec: the pointer-like base iterator of the example in
the spec ("pointer into sequence `[10,20,30]` at index 0"), which the header
receives as the template argument `Iterator`.  A pointer into the sequence `s`
is its integer position; `difference_type` is the integers; `*x` is the
element at the position, when there is one. -/
def pointer_operators {T : Type} (s : List T) : base_operators Int (Option T) Int where
  deref := fun x => if 0 ≤ x then s.get? x.toNat else none
  pre_increment := fun x => x + 1
  pre_decrement := fun x => x - 1
  plus_assign := fun x n => x + n
  minus := fun a b => a - b
  equal_to := fun a b => decide (a = b)
  less_than := fun a b => decide (a < b)

/-- The default policy set over pointers into the sequence `s`. -/
def pointer_policies {T : Type} (s : List T) : Policies Int (Option T) Int :=
  default_iterator_policies (pointer_operators s)

/-- A call of a function whose adaptor parameter is passed by value, made by a
caller that holds the adaptor `p`: the parameter is a copy of `p`, so the call
gives the result of the function on the copy, and the object of the caller
keeps its value. -/
def call_by_value {A B : Type} (f : A → B) (p : A) : B × A :=
  let parameter := p
  (f parameter, p)

/-- An instantiation `iterator_adaptor<Iterator, Policies, Traits, NonconstIterator>`
of the class template: its four template arguments, in the order of the
parameter list of the template.  `τ` is the collection of C++ types. -/
structure adaptor_instantiation (τ : Type) where
  /-- First template parameter, `class Iterator`. -/
  Iterator : τ
  /-- Second template parameter, `class Policies`. -/
  Policies : τ
  /-- Third template parameter, `class Traits`. -/
  Traits : τ
  /-- Fourth template parameter, `class NonconstIterator`. -/
  NonconstIterator : τ
deriving DecidableEq

/-- The parameter type of the converting constructor and of the converting
assignment of the instantiation `self`, for a template argument `OtherTraits`:
`iterator_adaptor<NonconstIterator, Policies, OtherTraits, NonconstIterator>`. -/
def adaptor_instantiation.converting_parameter {τ : Type} (self : adaptor_instantiation τ)
    (OtherTraits : τ) : adaptor_instantiation τ :=
  ⟨self.NonconstIterator, self.Policies, OtherTraits, self.NonconstIterator⟩

/-- Template argument deduction for the converting constructor and the
converting assignment of `self` on an argument of adaptor type `src`:
`OtherTraits` is deduced as the third argument of `src`, and the call is
accepted when `src` is then exactly the parameter type. -/
def adaptor_instantiation.accepts_converting {τ : Type} [DecidableEq τ]
    (self src : adaptor_instantiation τ) : Bool :=
  decide (src = self.converting_parameter src.Traits)

/-- The two member typedefs of the class template `iterator_adaptors`. -/
structure adaptor_pair (τ : Type) where
  /-- The typedef `iterator`. -/
  iterator : adaptor_instantiation τ
  /-- The typedef `const_iterator`. -/
  const_iterator : adaptor_instantiation τ
deriving DecidableEq

/-- The class template
`iterator_adaptors<Iterator, ConstIterator, Traits, ConstTraits, Policies>`:
`typedef iterator_adaptor<Iterator, Policies, Iterator, Traits> iterator;`
`typedef iterator_adaptor<ConstIterator, Policies, Iterator, ConstTraits> const_iterator;`.
The arguments are passed by position, as in the source. -/
def iterator_adaptors {τ : Type} (Iterator ConstIterator Traits ConstTraits Policies : τ) :
    adaptor_pair τ where
  iterator := ⟨Iterator, Policies, Iterator, Traits⟩
  const_iterator := ⟨ConstIterator, Policies, Iterator, ConstTraits⟩

/-- The C++ types used as template arguments in the examples: `T*`,
`const T*`, `std::iterator_traits<...>` of a type, and the class
`default_iterator_policies`. -/
inductive cpp_type where
  /-- The type `T*`. -/
  | pointer : cpp_type
  /-- The type `const T*`. -/
  | const_pointer : cpp_type
  /-- The type `std::iterator_traits<arg>`. -/
  | iterator_traits (arg : cpp_type) : cpp_type
  /-- The class `default_iterator_policies`. -/
  | default_policies : cpp_type
deriving DecidableEq

/-- A policy class derived from `default_iterator_policies` that overrides
`advance` so that the iterator moves one position further than asked:
`static void advance(Iterator& x, DifferenceType n) { x += n + 1; }`, over
pointers into `s`.  It is a policy set in the sense of the header: the adaptor
puts no requirement on what `advance` does. -/
def one_further_policies {T : Type} (s : List T) : Policies Int (Option T) Int :=
  { pointer_policies s with advance := fun x n => x + (n + 1) }

/-- A base iterator whose `==` is not reflexive: a user-defined iterator class
that keeps its position as a number that can be "not a number".  A position
is an integer or `none`; arithmetic on `none` gives `none`, and `none`
compares unequal to every position, itself included, as a floating-point NaN
does.  `*x` gives the position. -/
def nan_position_operators : base_operators (Option Int) (Option Int) (Option Int) where
  deref := fun x => x
  pre_increment := fun x => x.map fun a => a + 1
  pre_decrement := fun x => x.map fun a => a - 1
  plus_assign := fun x n => x.bind fun a => n.map fun k => a + k
  minus := fun a b => a.bind fun x => b.map fun y => x - y
  equal_to := fun a b =>
    match a, b with
    | some x, some y => decide (x = y)
    | _, _ => false
  less_than := fun a b =>
    match a, b with
    | some x, some y => decide (x < y)
    | _, _ => false

section pointer_lemmas

variable {T : Type} (s : List T)

/-- Over pointers, `k` pre-increments move the held position forward by `k`. -/
theorem iterate_operator_preinc_pointer (k : Nat) (y : iterator_adaptor Int) :
    (operator_preinc (pointer_policies s))^[k] y = { m_impl := y.m_impl + (k : Int) } := by
  induction k generalizing y with
  | zero => simp
  | succ k ih =>
    rw [Function.iterate_succ_apply, ih]
    simp only [operator_preinc, pointer_policies, default_iterator_policies, pointer_operators]
    congr 1
    push_cast
    ring

/-- Over pointers, `==` on adaptors is equality of the held positions. -/
theorem operator_eq_pointer (x y : iterator_adaptor Int) :
    operator_eq (pointer_policies s) x y = true ↔ x.m_impl = y.m_impl := by
  simp [operator_eq, pointer_policies, default_iterator_policies, pointer_operators]

/-- Over pointers, `<` on adaptors is the order of the held positions. -/
theorem operator_lt_pointer (x y : iterator_adaptor Int) :
    operator_lt (pointer_policies s) x y = true ↔ x.m_impl < y.m_impl := by
  simp [operator_lt, pointer_policies, default_iterator_policies, pointer_operators]

/-- Over pointers, the difference of two adaptors is the difference of the
held positions, left operand first. -/
theorem operator_minus_pointer (x y : iterator_adaptor Int) :
    operator_minus (pointer_policies s) x y = x.m_impl - y.m_impl := by
  simp [operator_minus, pointer_policies, default_iterator_policies, pointer_operators]

end pointer_lemmas

/-- C1: with the default policies over pointers into one sequence, `x - y` is
the number `k` of pre-increments that turn `y` into an adaptor equal to `x`
when `x` is not before `y`, and is `-k`, where `k` pre-increments turn `x`
into an adaptor equal to `y`, when `x` is before `y`; in both cases `k` is the
only such number. -/
theorem operator_minus_counts_increments {T : Type} (s : List T)
    (x y : iterator_adaptor Int) :
    (operator_lt (pointer_policies s) x y = false →
      ∃ k : Nat, operator_minus (pointer_policies s) x y = (k : Int) ∧
        operator_eq (pointer_policies s) ((operator_preinc (pointer_policies s))^[k] y) x = true ∧
        ∀ j : Nat,
          operator_eq (pointer_policies s) ((operator_preinc (pointer_policies s))^[j] y) x = true →
          j = k) ∧
    (operator_lt (pointer_policies s) x y = true →
      ∃ k : Nat, operator_minus (pointer_policies s) x y = -(k : Int) ∧
        operator_eq (pointer_policies s) ((operator_preinc (pointer_policies s))^[k] x) y = true ∧
        ∀ j : Nat,
          operator_eq (pointer_policies s) ((operator_preinc (pointer_policies s))^[j] x) y = true →
          j = k) := by
  constructor
  · intro h
    have hle : y.m_impl ≤ x.m_impl := by
      by_contra hc
      have : operator_lt (pointer_policies s) x y = true :=
        (operator_lt_pointer s x y).2 (by omega)
      rw [h] at this
      exact Bool.noConfusion this
    refine ⟨(x.m_impl - y.m_impl).toNat, ?_, ?_, ?_⟩
    · rw [operator_minus_pointer]; omega
    · rw [iterate_operator_preinc_pointer, operator_eq_pointer]
      show y.m_impl + ((x.m_impl - y.m_impl).toNat : Int) = x.m_impl
      omega
    · intro j hj
      rw [iterate_operator_preinc_pointer, operator_eq_pointer] at hj
      have hj2 : y.m_impl + (j : Int) = x.m_impl := hj
      omega
  · intro h
    have hlt : x.m_impl < y.m_impl := (operator_lt_pointer s x y).1 h
    refine ⟨(y.m_impl - x.m_impl).toNat, ?_, ?_, ?_⟩
    · rw [operator_minus_pointer]; omega
    · rw [iterate_operator_preinc_pointer, operator_eq_pointer]
      show x.m_impl + ((y.m_impl - x.m_impl).toNat : Int) = y.m_impl
      omega
    · intro j hj
      rw [iterate_operator_preinc_pointer, operator_eq_pointer] at hj
      have hj2 : x.m_impl + (j : Int) = y.m_impl := hj
      omega

/-- Witness of C1 on the sequence `[10,20,30]`: from position 0 to position 2
and back. -/
theorem operator_minus_counts_increments_witness :
    (operator_lt (pointer_policies [10, 20, 30]) ⟨2⟩ ⟨0⟩ = false ∧
      ∃ k : Nat, operator_minus (pointer_policies [10, 20, 30]) ⟨2⟩ ⟨0⟩ = (k : Int) ∧
        operator_eq (pointer_policies [10, 20, 30])
          ((operator_preinc (pointer_policies [10, 20, 30]))^[k] ⟨0⟩) ⟨2⟩ = true ∧
        ∀ j : Nat,
          operator_eq (pointer_policies [10, 20, 30])
            ((operator_preinc (pointer_policies [10, 20, 30]))^[j] ⟨0⟩) ⟨2⟩ = true →
          j = k) ∧
    (operator_lt (pointer_policies [10, 20, 30]) ⟨0⟩ ⟨2⟩ = true ∧
      ∃ k : Nat, operator_minus (pointer_policies [10, 20, 30]) ⟨0⟩ ⟨2⟩ = -(k : Int) ∧
        operator_eq (pointer_policies [10, 20, 30])
          ((operator_preinc (pointer_policies [10, 20, 30]))^[k] ⟨0⟩) ⟨2⟩ = true ∧
        ∀ j : Nat,
          operator_eq (pointer_policies [10, 20, 30])
            ((operator_preinc (pointer_policies [10, 20, 30]))^[j] ⟨0⟩) ⟨2⟩ = true →
          j = k) :=
  ⟨⟨by decide, (operator_minus_counts_increments [10, 20, 30] ⟨2⟩ ⟨0⟩).1 (by decide)⟩,
   ⟨by decide, (operator_minus_counts_increments [10, 20, 30] ⟨0⟩ ⟨2⟩).2 (by decide)⟩⟩

/-- C2: with the default policies over pointers, `(p + n) - n` compares equal
to `p` under the adaptor's `operator==`, for every adaptor `p` and offset `n`. -/
theorem plus_then_minus_offset_eq {T : Type} (s : List T) (p : iterator_adaptor Int) (n : Int) :
    operator_eq (pointer_policies s)
      (operator_minus_offset (pointer_policies s) (operator_plus (pointer_policies s) p n) n)
      p = true := by
  rw [operator_eq_pointer]
  show p.m_impl + n + -n = p.m_impl
  omega

/-- C3 as stated fails: with the default policies over a base iterator whose
`==` is not reflexive, for `p` holding the position `none` and `n = 1`, the
two overloads hold the same base-iterator value, yet `p + n == n + p` is
false. -/
theorem operator_plus_overloads_not_eq :
    (operator_plus (default_iterator_policies nan_position_operators) ⟨none⟩ (some 1)).m_impl =
      (operator_plus_left (default_iterator_policies nan_position_operators)
        (some 1) ⟨none⟩).m_impl ∧
    operator_eq (default_iterator_policies nan_position_operators)
      (operator_plus (default_iterator_policies nan_position_operators) ⟨none⟩ (some 1))
      (operator_plus_left (default_iterator_policies nan_position_operators) (some 1) ⟨none⟩)
      = false :=
  ⟨rfl, rfl⟩

/-- C3, amended: for every policy set, `p + n` and `n + p` hold the same
base-iterator value; hence under the default policies, over a base iterator
whose `==` is reflexive, `p + n == n + p`; a pointer-like base iterator is
one, so there `p + n == n + p` for every `p` and `n`. -/
theorem operator_plus_overloads_agree
    (ops : base_operators Iterator Reference Difference)
    (hrefl : ∀ a : Iterator, ops.equal_to a a = true)
    (P : Policies Iterator Reference Difference)
    (p : iterator_adaptor Iterator) (n : Difference) :
    (operator_plus P p n).m_impl = (operator_plus_left P n p).m_impl ∧
    operator_eq (default_iterator_policies ops)
      (operator_plus (default_iterator_policies ops) p n)
      (operator_plus_left (default_iterator_policies ops) n p) = true ∧
    ∀ (T : Type) (s : List T) (q : iterator_adaptor Int) (k : Int),
      operator_eq (pointer_policies s)
        (operator_plus (pointer_policies s) q k)
        (operator_plus_left (pointer_policies s) k q) = true :=
  ⟨rfl, hrefl _, fun _ s q k =>
    (operator_eq_pointer s (operator_plus (pointer_policies s) q k)
      (operator_plus_left (pointer_policies s) k q)).2 rfl⟩

/-- Witness of amended C3: pointers into `[10,20,30]`, `p` at position 0,
`n = 2`. -/
theorem operator_plus_overloads_agree_witness :
    (∀ a : Int, (pointer_operators [10, 20, 30]).equal_to a a = true) ∧
    (operator_plus (pointer_policies [10, 20, 30]) ⟨0⟩ 2).m_impl =
      (operator_plus_left (pointer_policies [10, 20, 30]) 2 ⟨0⟩).m_impl ∧
    operator_eq (default_iterator_policies (pointer_operators [10, 20, 30]))
      (operator_plus (default_iterator_policies (pointer_operators [10, 20, 30])) ⟨0⟩ 2)
      (operator_plus_left (default_iterator_policies (pointer_operators [10, 20, 30])) 2 ⟨0⟩)
      = true :=
  ⟨fun a => by simp [pointer_operators],
   (operator_plus_overloads_agree (pointer_operators [10, 20, 30])
     (fun a => by simp [pointer_operators]) (pointer_policies [10, 20, 30]) ⟨0⟩ 2).1,
   (operator_plus_overloads_agree (pointer_operators [10, 20, 30])
     (fun a => by simp [pointer_operators]) (pointer_policies [10, 20, 30]) ⟨0⟩ 2).2.1⟩

/-- C4: evaluation of `p++` with the default policies over pointers into
`[10,20,30]`, `p` at position 0, and for every policy set.  The variable `tmp`
holds the value `p` had before the call and `p` is left equal to the former
`p + 1`, but what the call returns is a reference to `tmp`, whose lifetime has
ended: it designates no object, so the call returns no value that compares
equal to the former `p`. -/
theorem operator_postinc_returns_expired_local :
    ((operator_postinc (pointer_policies [10, 20, 30]) ⟨0⟩).1.read = none ∧
      (operator_postinc (pointer_policies [10, 20, 30]) ⟨0⟩).1.last_value = ⟨0⟩ ∧
      operator_eq (pointer_policies [10, 20, 30])
        (operator_postinc (pointer_policies [10, 20, 30]) ⟨0⟩).2
        (operator_plus (pointer_policies [10, 20, 30]) ⟨0⟩ 1) = true) ∧
    ∀ (I R D : Type) (P : Policies I R D) (p : iterator_adaptor I),
      (operator_postinc P p).1.read = none ∧
      (operator_postinc P p).1.last_value = p ∧
      (operator_postinc P p).2 = operator_preinc P p :=
  ⟨⟨rfl, rfl, by decide⟩, fun _ _ _ _ _ => ⟨rfl, rfl, rfl⟩⟩

/-- C5: with the default policies over pointers, exactly one of `x < y`,
`x == y`, `y < x` is true, for all adaptors `x` and `y`. -/
theorem comparison_trichotomy {T : Type} (s : List T) (x y : iterator_adaptor Int) :
    (operator_lt (pointer_policies s) x y = true ∨
      operator_eq (pointer_policies s) x y = true ∨
      operator_lt (pointer_policies s) y x = true) ∧
    ¬ (operator_lt (pointer_policies s) x y = true ∧
      operator_eq (pointer_policies s) x y = true) ∧
    ¬ (operator_lt (pointer_policies s) x y = true ∧
      operator_lt (pointer_policies s) y x = true) ∧
    ¬ (operator_eq (pointer_policies s) x y = true ∧
      operator_lt (pointer_policies s) y x = true) := by
  simp only [operator_lt_pointer, operator_eq_pointer]
  omega

/-- C6: for every policy set, `x > y` is `y < x`, `x <= y` is `!(y < x)` and
`x >= y` is `!(x < y)`, and `x < y` is the policy's `less` on the two held
base iterators: the four ordering operators are determined by `less`. -/
theorem ordering_operators_from_less (P : Policies Iterator Reference Difference)
    (x y : iterator_adaptor Iterator) :
    operator_gt P x y = operator_lt P y x ∧
    operator_le P x y = !operator_lt P y x ∧
    operator_ge P x y = !operator_lt P x y ∧
    operator_lt P x y = P.less x.m_impl y.m_impl :=
  ⟨rfl, rfl, rfl, rfl⟩

/-- C7: for every policy set, `x != y` is the negation of `x == y`, and
`x == y` is the policy's `equal` on the two held base iterators. -/
theorem operator_ne_is_not_operator_eq (P : Policies Iterator Reference Difference)
    (x y : iterator_adaptor Iterator) :
    operator_ne P x y = !operator_eq P x y ∧
    operator_eq P x y = P.equal x.m_impl y.m_impl :=
  ⟨rfl, rfl⟩

/-- C8: with the default policies, constructing an adaptor from the base
iterator `a` and dereferencing it gives what dereferencing `a` gives. -/
theorem operator_star_of_constructed (ops : base_operators Iterator Reference Difference)
    (a : Iterator) :
    operator_star (default_iterator_policies ops) (iterator_adaptor.mk a) = ops.deref a :=
  rfl

/-- C10: evaluation of `p.operator->()` for `p` at position 0 of `[10,20,30]`
with the default policies, and for every policy set.  The call returns the
address of the adaptor object `p` itself, which is not the address of the
element that `*p` produces. -/
theorem operator_arrow_is_adaptor_address :
    ((operator_arrow ⟨0⟩ : designated Int (Option Nat)) = designated.adaptor_object ⟨0⟩ ∧
      (operator_arrow ⟨0⟩ : designated Int (Option Nat)) ≠
        designated.referent (operator_star (pointer_policies [10, 20, 30]) ⟨0⟩)) ∧
    ∀ (I R D : Type) (P : Policies I R D) (p : iterator_adaptor I),
      (operator_arrow p : designated I R) ≠ designated.referent (operator_star P p) :=
  ⟨⟨rfl, fun h => designated.noConfusion h⟩, fun _ _ _ _ _ h => designated.noConfusion h⟩

/-- The converting constructor and assignment of `self` accept `src` exactly
when the base type and the non-const tag of `src` are the non-const tag of
`self` and the two have the same policy class. -/
theorem accepts_converting_iff {τ : Type} [DecidableEq τ] (self src : adaptor_instantiation τ) :
    self.accepts_converting src = true ↔
      src.Iterator = self.NonconstIterator ∧ src.Policies = self.Policies ∧
        src.NonconstIterator = self.NonconstIterator := by
  cases self
  cases src
  simp [adaptor_instantiation.accepts_converting, adaptor_instantiation.converting_parameter]

/-- C12: evaluation of `iterator_adaptors<T*, const T*>` with the default
arguments `std::iterator_traits<T*>`, `std::iterator_traits<const T*>` and
`default_iterator_policies`.  The typedef `iterator` is the adaptor whose
trait description is `T*` and whose non-const tag is `std::iterator_traits<T*>`,
not the adaptor with trait description `std::iterator_traits<T*>` and
non-const tag `T*`; the non-const tag of `const_iterator` is
`std::iterator_traits<const T*>`, so the two typedefs do not share a non-const
tag and the converting constructor of `const_iterator` does not accept a
value of `iterator`. -/
theorem iterator_adaptors_arguments_swapped :
    (iterator_adaptors cpp_type.pointer cpp_type.const_pointer
        (cpp_type.iterator_traits cpp_type.pointer)
        (cpp_type.iterator_traits cpp_type.const_pointer)
        cpp_type.default_policies).iterator =
      { Iterator := cpp_type.pointer, Policies := cpp_type.default_policies,
        Traits := cpp_type.pointer,
        NonconstIterator := cpp_type.iterator_traits cpp_type.pointer } ∧
    (iterator_adaptors cpp_type.pointer cpp_type.const_pointer
        (cpp_type.iterator_traits cpp_type.pointer)
        (cpp_type.iterator_traits cpp_type.const_pointer)
        cpp_type.default_policies).iterator ≠
      { Iterator := cpp_type.pointer, Policies := cpp_type.default_policies,
        Traits := cpp_type.iterator_traits cpp_type.pointer,
        NonconstIterator := cpp_type.pointer } ∧
    (iterator_adaptors cpp_type.pointer cpp_type.const_pointer
        (cpp_type.iterator_traits cpp_type.pointer)
        (cpp_type.iterator_traits cpp_type.const_pointer)
        cpp_type.default_policies).const_iterator =
      { Iterator := cpp_type.const_pointer, Policies := cpp_type.default_policies,
        Traits := cpp_type.pointer,
        NonconstIterator := cpp_type.iterator_traits cpp_type.const_pointer } ∧
    (iterator_adaptors cpp_type.pointer cpp_type.const_pointer
        (cpp_type.iterator_traits cpp_type.pointer)
        (cpp_type.iterator_traits cpp_type.const_pointer)
        cpp_type.default_policies).const_iterator.NonconstIterator ≠
      (iterator_adaptors cpp_type.pointer cpp_type.const_pointer
        (cpp_type.iterator_traits cpp_type.pointer)
        (cpp_type.iterator_traits cpp_type.const_pointer)
        cpp_type.default_policies).iterator.NonconstIterator ∧
    adaptor_instantiation.accepts_converting
      (iterator_adaptors cpp_type.pointer cpp_type.const_pointer
        (cpp_type.iterator_traits cpp_type.pointer)
        (cpp_type.iterator_traits cpp_type.const_pointer)
        cpp_type.default_policies).const_iterator
      (iterator_adaptors cpp_type.pointer cpp_type.const_pointer
        (cpp_type.iterator_traits cpp_type.pointer)
        (cpp_type.iterator_traits cpp_type.const_pointer)
        cpp_type.default_policies).iterator = false := by
  refine ⟨rfl, by decide, rfl, by decide, by decide⟩

/-- C13: for a mutable adaptor and a const adaptor with the same policy class
and non-const tag, whose const base type differs from the non-const tag, the
converting constructor and assignment of the mutable adaptor do not accept the
const adaptor, and the two are different types, so the copy constructor does
not apply either; in general a source is accepted only if its base type and
its non-const tag are the non-const tag of the target and the policy classes
are the same. -/
theorem no_const_to_mutable_conversion {τ : Type} [DecidableEq τ]
    (I CI Pol Tr CTr : τ) (hne : CI ≠ I) :
    adaptor_instantiation.accepts_converting
      (⟨I, Pol, Tr, I⟩ : adaptor_instantiation τ) ⟨CI, Pol, CTr, I⟩ = false ∧
    (⟨CI, Pol, CTr, I⟩ : adaptor_instantiation τ) ≠ ⟨I, Pol, Tr, I⟩ ∧
    ∀ target source : adaptor_instantiation τ,
      target.accepts_converting source = true →
        source.Iterator = target.NonconstIterator ∧ source.Policies = target.Policies ∧
          source.NonconstIterator = target.NonconstIterator := by
  refine ⟨?_, ?_, fun target source h => (accepts_converting_iff target source).1 h⟩
  · rw [Bool.eq_false_iff]
    intro h
    exact hne ((accepts_converting_iff _ _).1 h).1
  · intro h
    exact hne (congrArg adaptor_instantiation.Iterator h)

/-- Witness of C13: the mutable adaptor over `T*` and the const adaptor over
`const T*`. -/
theorem no_const_to_mutable_conversion_witness :
    cpp_type.const_pointer ≠ cpp_type.pointer ∧
    adaptor_instantiation.accepts_converting
      (⟨cpp_type.pointer, cpp_type.default_policies,
        cpp_type.iterator_traits cpp_type.pointer, cpp_type.pointer⟩ :
        adaptor_instantiation cpp_type)
      ⟨cpp_type.const_pointer, cpp_type.default_policies,
        cpp_type.iterator_traits cpp_type.const_pointer, cpp_type.pointer⟩ = false :=
  ⟨by decide,
   (no_const_to_mutable_conversion cpp_type.pointer cpp_type.const_pointer
     cpp_type.default_policies (cpp_type.iterator_traits cpp_type.pointer)
     (cpp_type.iterator_traits cpp_type.const_pointer) (by decide)).1⟩

/-- C14 as stated fails: with the policy set `one_further_policies` over
`[10,20,30]` and `p` at position 0, `p += 0` and `p -= 0` leave `p` at
position 1. -/
theorem plus_assign_zero_not_noop :
    (operator_plus_assign (one_further_policies [10, 20, 30]) ⟨0⟩ 0).m_impl ≠
      (⟨0⟩ : iterator_adaptor Int).m_impl ∧
    (operator_minus_assign (one_further_policies [10, 20, 30]) ⟨0⟩ 0).m_impl ≠
      (⟨0⟩ : iterator_adaptor Int).m_impl := by
  constructor <;> decide

/-- C14, amended: for every adaptor `p` instantiated with a policy set whose
`advance` leaves the base iterator unchanged for the offset 0, `p += 0` and
`p -= 0` are no-ops; the default policies over pointers are such a policy set. -/
theorem plus_assign_zero_noop [NegZeroClass Difference]
    (P : Policies Iterator Reference Difference)
    (hadvance : ∀ x : Iterator, P.advance x 0 = x) (p : iterator_adaptor Iterator) :
    ((operator_plus_assign P p 0).m_impl = p.m_impl ∧
      (operator_minus_assign P p 0).m_impl = p.m_impl) ∧
    ∀ (T : Type) (s : List T) (q : iterator_adaptor Int),
      (operator_plus_assign (pointer_policies s) q 0).m_impl = q.m_impl ∧
      (operator_minus_assign (pointer_policies s) q 0).m_impl = q.m_impl := by
  refine ⟨⟨hadvance _, ?_⟩, fun T s q => ⟨?_, ?_⟩⟩
  · show P.advance p.m_impl (-0) = p.m_impl
    rw [neg_zero]
    exact hadvance _
  · show q.m_impl + 0 = q.m_impl
    omega
  · show q.m_impl + -0 = q.m_impl
    omega

/-- Witness of amended C14: the default policies over pointers into
`[10,20,30]`, `p` at position 1. -/
theorem plus_assign_zero_noop_witness :
    (∀ x : Int, (pointer_policies [10, 20, 30]).advance x 0 = x) ∧
    (operator_plus_assign (pointer_policies [10, 20, 30]) ⟨1⟩ 0).m_impl =
      (⟨1⟩ : iterator_adaptor Int).m_impl ∧
    (operator_minus_assign (pointer_policies [10, 20, 30]) ⟨1⟩ 0).m_impl =
      (⟨1⟩ : iterator_adaptor Int).m_impl :=
  ⟨fun x => Int.add_zero x,
   (plus_assign_zero_noop (pointer_policies [10, 20, 30]) (fun x => Int.add_zero x) ⟨1⟩).1⟩

/-- C15: for every policy set, `p + n` and `n + p` return the adaptor that
`+= n` produces from a copy of `p`, `p - n` returns the one that `-= n`
produces, and the operand `p` of the caller holds the same value after each
call as before. -/
theorem binary_offset_operators_value_semantics [Neg Difference]
    (P : Policies Iterator Reference Difference) (p : iterator_adaptor Iterator)
    (n : Difference) :
    call_by_value (fun q => operator_plus P q n) p = (operator_plus_assign P p n, p) ∧
    call_by_value (fun q => operator_plus_left P n q) p = (operator_plus_assign P p n, p) ∧
    call_by_value (fun q => operator_minus_offset P q n) p = (operator_minus_assign P p n, p) :=
  ⟨rfl, rfl, rfl⟩

/-- C16: evaluation of `p--` with the default policies over pointers into
`[10,20,30]`, `p` at position 1, and for every policy set.  The variable `tmp`
holds the base value `b` that `p` had and `p` is left holding the policy's
`decrement` of `b` (equal to the former `p - 1` with the default policies),
but what the call returns is a reference to `tmp`, whose lifetime has ended:
it designates no object, so the call returns no adaptor holding `b`. -/
theorem operator_postdec_returns_expired_local :
    ((operator_postdec (pointer_policies [10, 20, 30]) ⟨1⟩).1.read = none ∧
      (operator_postdec (pointer_policies [10, 20, 30]) ⟨1⟩).1.last_value = ⟨1⟩ ∧
      operator_eq (pointer_policies [10, 20, 30])
        (operator_postdec (pointer_policies [10, 20, 30]) ⟨1⟩).2
        (operator_minus_offset (pointer_policies [10, 20, 30]) ⟨1⟩ 1) = true) ∧
    ∀ (I R D : Type) (P : Policies I R D) (p : iterator_adaptor I),
      (operator_postdec P p).1.read = none ∧
      (operator_postdec P p).1.last_value.m_impl = p.m_impl ∧
      (operator_postdec P p).2.m_impl = P.decrement p.m_impl :=
  ⟨⟨rfl, rfl, by decide⟩, fun _ _ _ _ _ => ⟨rfl, rfl, rfl⟩⟩

/-- C17: with the default policies over pointers, `(p + n) - p` is `n`, for
every adaptor `p` and offset `n`. -/
theorem plus_then_minus_adaptor {T : Type} (s : List T) (p : iterator_adaptor Int) (n : Int) :
    operator_minus (pointer_policies s) (operator_plus (pointer_policies s) p n) p = n := by
  rw [operator_minus_pointer]
  show p.m_impl + n - p.m_impl = n
  omega

/-- C18: with the default policies over pointers, `x == y` holds exactly when
`x - y` is 0, `x < y` holds exactly when `x - y` is negative, and `x - y` is
`-(y - x)`. -/
theorem distance_agrees_with_comparison {T : Type} (s : List T) (x y : iterator_adaptor Int) :
    (operator_eq (pointer_policies s) x y = true ↔ operator_minus (pointer_policies s) x y = 0) ∧
    (operator_lt (pointer_policies s) x y = true ↔ operator_minus (pointer_policies s) x y < 0) ∧
    operator_minus (pointer_policies s) x y = -(operator_minus (pointer_policies s) y x) := by
  simp only [operator_eq_pointer, operator_lt_pointer, operator_minus_pointer]
  omega

/-- C19: with the default policies over pointers, pre-increment leaves `p`
equal to the former `p + 1`, pre-decrement leaves `p` equal to the former
`p - 1`, and pre-increment followed by pre-decrement, or the reverse, leaves
`p` equal to the original. -/
theorem preinc_predec_inverse {T : Type} (s : List T) (p : iterator_adaptor Int) :
    operator_eq (pointer_policies s) (operator_preinc (pointer_policies s) p)
      (operator_plus (pointer_policies s) p 1) = true ∧
    operator_eq (pointer_policies s) (operator_predec (pointer_policies s) p)
      (operator_minus_offset (pointer_policies s) p 1) = true ∧
    operator_eq (pointer_policies s)
      (operator_predec (pointer_policies s) (operator_preinc (pointer_policies s) p)) p = true ∧
    operator_eq (pointer_policies s)
      (operator_preinc (pointer_policies s) (operator_predec (pointer_policies s) p)) p = true := by
  simp only [operator_eq_pointer]
  refine ⟨rfl, ?_, ?_, ?_⟩
  · show p.m_impl - 1 = p.m_impl + -1
    omega
  · show p.m_impl + 1 - 1 = p.m_impl
    omega
  · show p.m_impl - 1 + 1 = p.m_impl
    omega

end boost
